import Mathlib

/-!
Shallow embedding of the 591 rental-bot scraping core (src/scraper.js) and
proofs about the properties its specification claims.

Browser, network and DOM effects are abstracted as oracles: what the page
evaluation would return is an input to the model, while every pure
computation of the source (URL construction, price parsing, listing
extraction, aggregation, dedup, truncation, log construction, error
routing) is translated faithfully from the JavaScript.
-/

/-! ## String utilities mirroring JavaScript primitives -/

/-- Model of JavaScript String.prototype.trim: drop whitespace from both ends. -/
def jsTrim (s : String) : String :=
  ⟨((s.data.dropWhile Char.isWhitespace).reverse.dropWhile Char.isWhitespace).reverse⟩

/-- Is the first list a prefix of the second (Boolean, by char equality)? -/
def listIsPrefixOf : List Char → List Char → Bool
  | [], _ => true
  | _ :: _, [] => false
  | a :: as, b :: bs => a == b && listIsPrefixOf as bs

/-- Does the second list contain the first as a contiguous sublist? -/
def listContainsSub (pat : List Char) : List Char → Bool
  | [] => pat.isEmpty
  | b :: bs => listIsPrefixOf pat (b :: bs) || listContainsSub pat bs

/-- Model of JavaScript String.prototype.includes(pat). -/
def strIncludes (s pat : String) : Bool := listContainsSub pat.data s.data

/-- Substring-containment as a proposition: pat occurs contiguously in s. -/
def StrHasSub (s pat : String) : Prop := pat.data <:+: s.data

/-- Value of a leading run of decimal digits; none when there is no digit. -/
def digitsVal (cs : List Char) : Option Nat :=
  let ds := cs.takeWhile Char.isDigit
  if ds.isEmpty then none
  else some (ds.foldl (fun acc c => 10 * acc + (c.toNat - 48)) 0)

/-- Value of a leading run of hexadecimal digits; none when there is none. -/
def hexVal (cs : List Char) : Option Nat :=
  let ds := cs.takeWhile (fun c => c.isDigit || (c ≥ 'a' && c ≤ 'f') || (c ≥ 'A' && c ≤ 'F'))
  if ds.isEmpty then none
  else some (ds.foldl (fun acc c =>
    16 * acc + (if c.isDigit then c.toNat - 48
                else if c ≥ 'a' && c ≤ 'f' then c.toNat - 87
                else c.toNat - 55)) 0)

/-- Model of JavaScript parseInt with no radix argument: skip leading
whitespace, read an optional sign, detect a 0x/0X hex prefix, otherwise
parse the maximal leading decimal-digit run; none models NaN. -/
def parseIntJS (s : String) : Option Int :=
  let core : List Char → Option Nat := fun cs =>
    match cs with
    | '0' :: 'x' :: rest => hexVal rest
    | '0' :: 'X' :: rest => hexVal rest
    | _ => digitsVal cs
  match s.data.dropWhile Char.isWhitespace with
  | '-' :: rest => (core rest).map (fun n => -(n : Int))
  | '+' :: rest => (core rest).map (fun n => (n : Int))
  | cs => (core cs).map (fun n => (n : Int))

/-! ## Query Builder (src/scraper.js, buildSearchUrl, lines 104-120) -/

/-- The fixed pieces of SEARCH_CONFIG used by the URL builder
(src/scraper.js lines 38-97). -/
structure SearchConfig where
  baseUrl : String
  nearSubway : String
  canCook : String

def SEARCH_CONFIG : SearchConfig :=
  { baseUrl := "https://rent.591.com.tw/list"
    nearSubway := "near_subway"
    canCook := "cook" }

/-- UTF-8 bytes of a code point. -/
def utf8Bytes (n : Nat) : List Nat :=
  if n < 128 then [n]
  else if n < 2048 then [192 + n / 64, 128 + n % 64]
  else if n < 65536 then [224 + n / 4096, 128 + (n / 64) % 64, 128 + n % 64]
  else [240 + n / 262144, 128 + (n / 4096) % 64, 128 + (n / 64) % 64, 128 + n % 64]

/-- Uppercase hex digit for a value below 16. -/
def hexDigit (n : Nat) : Char := (("0123456789ABCDEF").data.getD n '0')

/-- Percent-encoding of one byte, uppercase hex. -/
def percentByte (n : Nat) : String := ⟨['%', hexDigit (n / 16), hexDigit (n % 16)]⟩

/-- Characters the application/x-www-form-urlencoded serializer of
URLSearchParams leaves unescaped. -/
def isFormUnreserved (c : Char) : Bool :=
  c.isAlphanum || c == '*' || c == '-' || c == '.' || c == '_'

/-- Model of the URLSearchParams application/x-www-form-urlencoded
serialization of one string: unreserved chars kept, space becomes plus,
everything else percent-encoded bytewise on UTF-8. -/
def formEncode (s : String) : String :=
  String.join (s.data.map (fun c =>
    if isFormUnreserved c then ⟨[c]⟩
    else if c == ' ' then "+"
    else String.join ((utf8Bytes c.toNat).map percentByte)))

/-- JS truthiness of the optional section argument: undefined, null and 0
are all falsy, so the section parameter is appended only for a nonzero id. -/
def sectionTruthy : Option Nat → Bool
  | none => false
  | some s => !(s == 0)

/-- The three pairs the URLSearchParams constructor of buildSearchUrl is
seeded with, in insertion order (src/scraper.js lines 105-109). -/
def baseParams (region minRent maxRent : Nat) : List (String × String) :=
  [("region", toString region),
   ("price", toString minRent ++ "_" ++ toString maxRent),
   ("other", SEARCH_CONFIG.nearSubway ++ "," ++ SEARCH_CONFIG.canCook)]

/-- The pairs after the conditional section append (lines 111-113):
appended only when the section argument is truthy. -/
def paramsWithSection (region : Nat) (sectionId : Option Nat) (minRent maxRent : Nat) :
    List (String × String) :=
  match sectionId with
  | some s =>
    if s = 0 then baseParams region minRent maxRent
    else baseParams region minRent maxRent ++ [("section", toString s)]
  | none => baseParams region minRent maxRent

/-- The key-value pairs accumulated in the URLSearchParams object of
buildSearchUrl, in insertion order (src/scraper.js lines 105-117): the
keywords pair is appended only when the keyword string is truthy. -/
def searchParams (region : Nat) (sectionId : Option Nat) (minRent maxRent : Nat)
    (keywords : String) : List (String × String) :=
  if keywords = "" then paramsWithSection region sectionId minRent maxRent
  else paramsWithSection region sectionId minRent maxRent ++ [("keywords", keywords)]

/-- Model of URLSearchParams.toString(): form-encode each key and value,
join pairs with an ampersand. -/
def serializeParams : List (String × String) → String
  | [] => ""
  | [p] => formEncode p.1 ++ "=" ++ formEncode p.2
  | p :: q :: rest => formEncode p.1 ++ "=" ++ formEncode p.2 ++ "&" ++ serializeParams (q :: rest)

/-- Model of buildSearchUrl (src/scraper.js lines 104-120). -/
def buildSearchUrl (region : Nat) (sectionId : Option Nat) (minRent maxRent : Nat)
    (keywords : String) : String :=
  SEARCH_CONFIG.baseUrl ++ "?" ++ serializeParams (searchParams region sectionId minRent maxRent keywords)

/-! ## List Extractor (src/scraper.js, page.evaluate body, lines 142-212) -/

/-- One raw DOM element of the results list, as seen by the extractor:
the text/attribute values the selector queries would deliver. Option
models a selector that matched no element. -/
structure RawItem where
  titleText : Option String
  href : Option String
  priceText : Option String
  infoTxts : List String
  tagTexts : List String
  imgSrcs : List String
deriving Repr, DecidableEq

/-- One extracted listing record (src/scraper.js lines 193-204).
The region tag is empty at extraction time; scrape591 sets it later. -/
structure Listing where
  id : String
  title : String
  price : Int
  address : String
  layout : String
  tags : List String
  subway : String
  image : String
  images : List String
  url : String
  region : String
deriving Repr, DecidableEq

/-- Model of the id regex match on href (line 152): find the first slash
followed by at least one digit; the captured group is the maximal digit
run after that slash. -/
def findIdSegment : List Char → Option String
  | [] => none
  | '/' :: rest =>
    let ds := rest.takeWhile Char.isDigit
    if ds.isEmpty then findIdSegment rest else some ⟨ds⟩
  | _ :: rest => findIdSegment rest

/-- Is c one of the characters removed by priceText.replace with the
character class comma, yuan sign, slash, month sign (src/scraper.js line 157)? -/
def isStrippedPriceChar (c : Char) : Bool :=
  c == ',' || c == '元' || c == '/' || c == '月'

/-- Model of the price computation of the extractor (line 157): strip the
known currency/unit characters, parseInt, default 0 on NaN. -/
def parsePrice (priceText : String) : Int :=
  match parseIntJS ⟨priceText.data.filter (fun c => !isStrippedPriceChar c)⟩ with
  | none => 0
  | some v => v

/-- The three classified info fields of a listing element. -/
structure InfoFields where
  address : String
  subway : String
  layout : String

/-- Model of the info-text classification loop (lines 165-174): later
fragments of the same class overwrite earlier ones. -/
def classifyInfo (infoTxts : List String) : InfoFields :=
  infoTxts.foldl (fun acc txt =>
    let text := jsTrim txt
    if strIncludes text "區-" || strIncludes text "路" || strIncludes text "街" then
      { acc with address := text }
    else if strIncludes text "公尺" || strIncludes text "捷運" || strIncludes text "站" then
      { acc with subway := text }
    else if strIncludes text "房" || strIncludes text "坪" || strIncludes text "樓" then
      { acc with layout := text }
    else acc) ⟨"", "", ""⟩

/-- Model of the image collection loop (lines 183-189): keep nonempty,
non-placeholder, not-yet-seen sources in DOM order. -/
def collectImages (srcs : List String) : List String :=
  srcs.foldl (fun images src =>
    if src ≠ "" ∧ strIncludes src "placeholder" = false ∧ src ∉ images then
      images ++ [src]
    else images) []

/-- Model of the per-element extraction body (lines 146-205): a record is
produced only when the title is nonempty and the price is positive. -/
def extractListing (index : Nat) (item : RawItem) : Option Listing :=
  let title := (item.titleText.map jsTrim).getD ""
  let href := item.href.getD ""
  let id := (findIdSegment href.data).getD ("unknown-" ++ toString index)
  let price := parsePrice ((item.priceText.map jsTrim).getD "")
  let info := classifyInfo item.infoTxts
  let images := collectImages item.imgSrcs
  if title ≠ "" ∧ price > 0 then
    some { id := id, title := title, price := price, address := info.address,
           layout := info.layout, tags := item.tagTexts.map jsTrim,
           subway := info.subway, image := images.headD "", images := images,
           url := "https://rent.591.com.tw/" ++ id, region := "" }
  else none

/-- Model of the whole page.evaluate extraction (lines 142-212): the DOM
item list with positional indices, filtered through extractListing. -/
def extractListings (items : List RawItem) : List Listing :=
  items.enum.filterMap (fun p => extractListing p.1 p.2)

/-! ## Page Renderer outcome and scrapeRegion (src/scraper.js lines 125-219) -/

/-- Outcome of rendering one target page: either the DOM items the
extractor would see, or a navigation/selector failure of any kind. -/
inductive RegionFetch where
  | ok (items : List RawItem)
  | fail
deriving Repr, DecidableEq

/-- The URL scrapeRegion actually navigates to (line 126): buildSearchUrl
with the hardcoded dry/wet-separation keyword. -/
def scrapeRegionUrl (region : Nat) (sectionId : Option Nat) (minRent maxRent : Nat) : String :=
  buildSearchUrl region sectionId minRent maxRent "乾濕分離"

/-- Model of scrapeRegion (lines 125-219): the whole attempt is wrapped in
try/catch, so any failure yields the empty list; on success the page
items are run through the extractor. -/
def scrapeRegion (fetch : RegionFetch) : List Listing :=
  match fetch with
  | .ok items => extractListings items
  | .fail => []

/-! ## Aggregator scrape591 (src/scraper.js lines 291-403) -/

/-- One search target as supplied by the caller (region, optional section
id, display name). -/
structure Target where
  region : Nat
  sectionId : Option Nat
  name : String
deriving Repr, DecidableEq

/-- Environment of one scrape591 run. The onProgress callback is modeled
by what each invocation does: true means it returns normally, false means
it throws synchronously. launchOk models browser startup; fetch is the
per-target render outcome. -/
structure ScrapeEnv where
  targets : List Target
  minRent : Nat
  maxRent : Nat
  maxResults : Nat
  onProgress : Option (String → Bool)
  launchOk : Bool
  fetch : Target → RegionFetch

/-- Does the onProgress call with this message throw? Absent callback
never throws (the call is guarded by a null check). -/
def progressThrows (env : ScrapeEnv) (msg : String) : Bool :=
  match env.onProgress with
  | none => false
  | some f => !f msg

/-- The startup progress message (line 306). -/
def startupMsg : String := "🚀 爬蟲啟動中..."

/-- The per-target start progress message (line 348). -/
def startMsg (t : Target) : String := "🏙️ 正在爬取: " ++ t.name ++ "..."

/-- The per-target result progress message (line 354). -/
def resultMsg (t : Target) (n : Nat) : String :=
  "✅ " ++ t.name ++ " - 找到 " ++ toString n ++ " 間物件"

/-- The per-target log entry (lines 345 and 357): header plus URL plus the
found count, pushed only after both progress calls returned. -/
def targetLogEntry (env : ScrapeEnv) (t : Target) (n : Nat) : String :=
  "🏙️ 正在爬取: " ++ t.name ++ "\n📍 " ++
    scrapeRegionUrl t.region t.sectionId env.minRent env.maxRent ++
    "\n   找到 " ++ toString n ++ " 間物件"

/-- The final log entry of a completed run (line 393). -/
def finalLog (n : Nat) : String := "✅ 總共找到 " ++ toString n ++ " 間符合條件的物件"

/-- The log entry the run-level catch pushes (line 397); the thrown
error message is abstracted away. -/
def errorLog : String := "❌ 爬蟲錯誤"

/-- The per-target loop (lines 338-369): accumulates tagged listings and
log entries; the Boolean records whether the loop ran to completion
(true) or an exception escaped to the run-level catch (false). -/
def runTargets (env : ScrapeEnv) : List Target → List Listing → List String →
    List Listing × List String × Bool
  | [], acc, logs => (acc, logs, true)
  | t :: rest, acc, logs =>
    if progressThrows env (startMsg t) then (acc, logs, false)
    else
      let listings := scrapeRegion (env.fetch t)
      if progressThrows env (resultMsg t listings.length) then (acc, logs, false)
      else
        runTargets env rest
          (acc ++ listings.map (fun l => { l with region := t.name }))
          (logs ++ [targetLogEntry env t listings.length])

/-- The dedup loop with its seen-id set (lines 371-379). -/
def dedupAux : List Listing → List String → List Listing
  | [], _ => []
  | x :: xs, seenIds =>
    if x.id ∈ seenIds then dedupAux xs seenIds
    else x :: dedupAux xs (x.id :: seenIds)

/-- Dedup by id, first occurrence wins, insertion order preserved. -/
def dedupById (l : List Listing) : List Listing := dedupAux l []

/-- Result of one scrape591 call: a normal return of listings and logs,
or an exception escaping the function. -/
inductive RunResult where
  | ok (listings : List Listing) (logs : List String)
  | thrown
deriving Repr, DecidableEq

/-- Model of scrape591 (lines 291-403). The startup progress call (306)
and browser launch (322) happen before the try block, so their failures
propagate. Inside the try, a throw is caught at run level (395): the
catch logs the error and the function still returns the listings
accumulated so far, without the dedup and truncation steps. -/
def scrape591 (env : ScrapeEnv) : RunResult :=
  if progressThrows env startupMsg then .thrown
  else if !env.launchOk then .thrown
  else
    match runTargets env env.targets [] [] with
    | (acc, logs, true) =>
      let uniqueListings := dedupById acc
      let capped :=
        if uniqueListings.length > env.maxResults then uniqueListings.take env.maxResults
        else uniqueListings
      .ok capped (logs ++ [finalLog capped.length])
    | (acc, logs, false) => .ok acc (logs ++ [errorLog])

/-- Projection: the listings of a normal return. -/
def runListings : RunResult → Option (List Listing)
  | .ok listings _ => some listings
  | .thrown => none

/-- Projection: the logs of a normal return. -/
def runLogs : RunResult → Option (List String)
  | .ok _ logs => some logs
  | .thrown => none

/-! ## Detail/Contact Enricher getContactInfo (src/scraper.js lines 410-578) -/

/-- The five fields the successful page evaluation returns (line 566). -/
structure ContactInfo where
  phone : String
  line : String
  landlordName : String
  title : String
  address : String
deriving Repr, DecidableEq

/-- Result of one getContactInfo call. The catch branch (line 574)
returns an object with only phone, line and landlordName; a failure
before the try block propagates as an exception. -/
inductive ContactResult where
  | ok (info : ContactInfo)
  | failed (phone line landlordName : String)
  | thrown
deriving Repr, DecidableEq

/-- Environment of one getContactInfo call: does browser launch succeed
(lines 414-419, outside the try), does navigation/evaluation succeed, and
what the page evaluation would extract. -/
structure ContactEnv where
  launchOk : Bool
  navOk : Bool
  pageInfo : ContactInfo

/-- Model of getContactInfo (lines 410-578): ensureBrowserInstalled and
chromium.launch run before the try, so a launch failure throws; inside
the try, any error is caught and the three-field fallback object is
returned (line 574); otherwise the evaluated contact info is returned. -/
def getContactInfo (env : ContactEnv) : ContactResult :=
  if !env.launchOk then .thrown
  else if !env.navOk then .failed "" "" ""
  else .ok env.pageInfo

/-! ## Derived forms of the aggregation used to state the claims -/

/-- The listings one target contributes to the aggregate: its scrape
result, each record tagged with the display name of the target
(src/scraper.js lines 361-365). -/
def taggedOf (env : ScrapeEnv) (t : Target) : List Listing :=
  (scrapeRegion (env.fetch t)).map (fun l => { l with region := t.name })

/-- Concatenation of all per-target tagged listings in target order. -/
def joinedTagged (env : ScrapeEnv) : List Listing :=
  (env.targets.map (taggedOf env)).flatten

/-- The per-target log entries of a completed loop, in target order. -/
def targetLogs (env : ScrapeEnv) (ts : List Target) : List String :=
  ts.map (fun t => targetLogEntry env t (scrapeRegion (env.fetch t)).length)

/-! ## Concrete fixtures for witnesses and counterexamples -/

/-- A minimal DOM element with only title, link and price populated. -/
def rawItemOf (href title price : String) : RawItem :=
  { titleText := some title, href := some href, priceText := some price,
    infoTxts := [], tagTexts := [], imgSrcs := [] }

/-- The listing such an element extracts to, after region tagging. -/
def listingOf (id title : String) (price : Int) (region : String) : Listing :=
  { id := id, title := title, price := price, address := "", layout := "",
    tags := [], subway := "", image := "", images := [],
    url := "https://rent.591.com.tw/" ++ id, region := region }

/-- Three targets that all yield the same listing id 999; the progress
callback throws on the start notification of the third target. -/
def envC1cex : ScrapeEnv :=
  { targets := [⟨1, some 1, "A1"⟩, ⟨1, some 2, "A2"⟩, ⟨1, some 3, "A3"⟩],
    minRent := 8000, maxRent := 12000, maxResults := 20,
    onProgress := some (fun msg => !(msg == startMsg ⟨1, some 3, "A3"⟩)),
    launchOk := true,
    fetch := fun _ => RegionFetch.ok [rawItemOf "/999" "套房" "100"] }

/-- Two targets both yielding listing id 999, no progress callback. -/
def envC1wit : ScrapeEnv :=
  { targets := [⟨1, some 1, "W1"⟩, ⟨3, some 37, "W2"⟩],
    minRent := 8000, maxRent := 12000, maxResults := 20,
    onProgress := none, launchOk := true,
    fetch := fun _ => RegionFetch.ok [rawItemOf "/999" "套房" "100"] }

/-- First target yields three listings, result cap two; the progress
callback throws on the start notification of the second target. -/
def envC2cex : ScrapeEnv :=
  { targets := [⟨1, some 1, "B1"⟩, ⟨1, some 2, "B2"⟩],
    minRent := 8000, maxRent := 12000, maxResults := 2,
    onProgress := some (fun msg => !(msg == startMsg ⟨1, some 2, "B2"⟩)),
    launchOk := true,
    fetch := fun _ => RegionFetch.ok
      [rawItemOf "/1" "房A" "100", rawItemOf "/2" "房B" "100", rawItemOf "/3" "房C" "100"] }

/-- One target yielding three listings, result cap two, no callback. -/
def envC2wit : ScrapeEnv :=
  { targets := [⟨1, some 1, "B3"⟩],
    minRent := 8000, maxRent := 12000, maxResults := 2,
    onProgress := none, launchOk := true,
    fetch := fun _ => RegionFetch.ok
      [rawItemOf "/4" "房D" "100", rawItemOf "/5" "房E" "100", rawItemOf "/6" "房F" "100"] }

/-- All contact fields empty. -/
def contactAllEmpty : ContactInfo := ⟨"", "", "", "", ""⟩

/-- Enrichment call on which the browser launch fails. -/
def envC4launchFail : ContactEnv :=
  { launchOk := false, navOk := true, pageInfo := contactAllEmpty }

/-- Enrichment call on which navigation fails after a successful launch. -/
def envC4navFail : ContactEnv :=
  { launchOk := true, navOk := false, pageInfo := contactAllEmpty }

/-- Enrichment call failing at launch, used by the witness. -/
def envC4witA : ContactEnv :=
  { launchOk := false, navOk := false, pageInfo := contactAllEmpty }

/-- Enrichment call failing at navigation, used by the witness. -/
def envC4witB : ContactEnv :=
  { launchOk := true, navOk := false,
    pageInfo := ⟨"0912-345-678", "", "", "", ""⟩ }

/-- One failing target followed by one succeeding target, no callback. -/
def envC7wit : ScrapeEnv :=
  { targets := [⟨1, some 1, "F1"⟩, ⟨1, some 2, "F2"⟩],
    minRent := 8000, maxRent := 12000, maxResults := 20,
    onProgress := none, launchOk := true,
    fetch := fun t => if t.name = "F1" then RegionFetch.fail
      else RegionFetch.ok [rawItemOf "/777" "房" "100"] }

/-- A run whose progress callback always throws. -/
def envC8cex : ScrapeEnv :=
  { targets := [⟨1, some 1, "P1"⟩],
    minRent := 8000, maxRent := 12000, maxResults := 20,
    onProgress := some (fun _ => false),
    launchOk := true,
    fetch := fun _ => RegionFetch.ok [rawItemOf "/555" "房" "100"] }

/-- The same run with no progress callback. -/
def envC8good : ScrapeEnv := { envC8cex with onProgress := none }

/-- A run whose progress callback throws only on the start notification
of target Q1. -/
def envC8wit : ScrapeEnv :=
  { targets := [⟨1, some 1, "Q1"⟩],
    minRent := 8000, maxRent := 12000, maxResults := 20,
    onProgress := some (fun msg => !(msg == startMsg ⟨1, some 1, "Q1"⟩)),
    launchOk := true,
    fetch := fun _ => RegionFetch.ok [] }

/-- Seven distinct valid elements for the C9 scenario. -/
def itemsC9 : List RawItem :=
  [rawItemOf "/1" "房" "100", rawItemOf "/2" "房" "100", rawItemOf "/3" "房" "100",
   rawItemOf "/4" "房" "100", rawItemOf "/5" "房" "100", rawItemOf "/6" "房" "100",
   rawItemOf "/7" "房" "100"]

/-- One target yielding seven distinct valid listings, result cap five. -/
def envC9wit : ScrapeEnv :=
  { targets := [⟨1, some 1, "City-A"⟩],
    minRent := 8000, maxRent := 12000, maxResults := 5,
    onProgress := none, launchOk := true,
    fetch := fun _ => RegionFetch.ok itemsC9 }

/-! ## Helper lemmas -/

lemma dedupAux_spec (l : List Listing) :
    ∀ (seen : List String) (y : Listing), y ∈ dedupAux l seen →
      y.id ∉ seen ∧ l.find? (fun z => z.id == y.id) = some y := by
  induction l with
  | nil => intro seen y h; simp [dedupAux] at h
  | cons x xs ih =>
    intro seen y h
    by_cases hx : x.id ∈ seen
    · rw [dedupAux, if_pos hx] at h
      obtain ⟨hy, hfind⟩ := ih seen y h
      have hne : (x.id == y.id) = false := by
        simp only [beq_eq_false_iff_ne, ne_eq]
        intro hid
        exact hy (hid ▸ hx)
      exact ⟨hy, by simp [List.find?, hne, hfind]⟩
    · rw [dedupAux, if_neg hx] at h
      rcases List.mem_cons.mp h with hxy | h
      · subst hxy
        exact ⟨hx, by simp [List.find?]⟩
      · obtain ⟨hy, hfind⟩ := ih (x.id :: seen) y h
        have hy1 : y.id ≠ x.id := fun hc => hy (by simp [hc])
        have hy2 : y.id ∉ seen := fun hc => hy (by simp [hc])
        have hne : (x.id == y.id) = false := by
          simp only [beq_eq_false_iff_ne, ne_eq]
          exact fun hc => hy1 hc.symm
        exact ⟨hy2, by simp [List.find?, hne, hfind]⟩

lemma dedupAux_nodup (l : List Listing) :
    ∀ seen : List String, ((dedupAux l seen).map Listing.id).Nodup := by
  induction l with
  | nil => intro seen; simp [dedupAux]
  | cons x xs ih =>
    intro seen
    by_cases hx : x.id ∈ seen
    · rw [dedupAux, if_pos hx]; exact ih seen
    · rw [dedupAux, if_neg hx]
      refine List.nodup_cons.mpr ⟨?_, ih (x.id :: seen)⟩
      intro hmem
      obtain ⟨y, hy, hid⟩ := List.mem_map.mp hmem
      exact ((dedupAux_spec xs (x.id :: seen) y hy).1) (by simp [hid])

lemma dedupAux_complete (l : List Listing) :
    ∀ (seen : List String) (x : Listing), x ∈ l → x.id ∉ seen →
      ∃ y ∈ dedupAux l seen, y.id = x.id := by
  induction l with
  | nil => intro seen x h; simp at h
  | cons a as ih =>
    intro seen x hmem hx
    by_cases ha : a.id ∈ seen
    · rw [dedupAux, if_pos ha]
      rcases List.mem_cons.mp hmem with rfl | hmem
      · exact absurd ha hx
      · exact ih seen x hmem hx
    · rw [dedupAux, if_neg ha]
      rcases List.mem_cons.mp hmem with rfl | hmem
      · exact ⟨x, List.mem_cons_self x _, rfl⟩
      · by_cases hcase : x.id = a.id
        · exact ⟨a, List.mem_cons_self a _, hcase.symm⟩
        · obtain ⟨y, hy, hid⟩ := ih (a.id :: seen) x hmem (by simp [hx, hcase])
          exact ⟨y, List.mem_cons_of_mem a hy, hid⟩

lemma dedupAux_eq_self (l : List Listing) :
    ∀ seen : List String, (l.map Listing.id).Nodup →
      (∀ x ∈ l, x.id ∉ seen) → dedupAux l seen = l := by
  induction l with
  | nil => intro seen _ _; rfl
  | cons a as ih =>
    intro seen hnd hns
    have ha : a.id ∉ seen := hns a (List.mem_cons_self a as)
    rw [dedupAux, if_neg ha]
    have hnd' : (∀ x ∈ as, ¬ x.id = a.id) ∧ (as.map Listing.id).Nodup := by
      simpa using hnd
    refine congrArg (a :: ·) (ih (a.id :: seen) hnd'.2 ?_)
    intro x hx
    simp only [List.mem_cons]
    push_neg
    exact ⟨hnd'.1 x hx, hns x (List.mem_cons_of_mem a hx)⟩

lemma dedupById_eq_self (l : List Listing) (h : (l.map Listing.id).Nodup) :
    dedupById l = l :=
  dedupAux_eq_self l [] h (by simp)

lemma cap_take (l : List Listing) (n : Nat) :
    (if l.length > n then l.take n else l) = l.take n := by
  split
  · rfl
  · exact (List.take_of_length_le (Nat.le_of_not_lt (by assumption))).symm

lemma runTargets_noThrow (env : ScrapeEnv)
    (hnp : ∀ msg, progressThrows env msg = false) :
    ∀ (ts : List Target) (acc : List Listing) (logs : List String),
      runTargets env ts acc logs =
        (acc ++ (ts.map (taggedOf env)).flatten, logs ++ targetLogs env ts, true) := by
  intro ts
  induction ts with
  | nil => intro acc logs; simp [runTargets, targetLogs]
  | cons t rest ih =>
    intro acc logs
    rw [runTargets]
    simp only [hnp, if_false, Bool.false_eq_true]
    rw [ih]
    simp [taggedOf, targetLogs]

lemma scrape591_noThrow (env : ScrapeEnv) (h1 : env.launchOk = true)
    (hnp : ∀ msg, progressThrows env msg = false) :
    scrape591 env = RunResult.ok ((dedupById (joinedTagged env)).take env.maxResults)
      (targetLogs env env.targets ++
        [finalLog ((dedupById (joinedTagged env)).take env.maxResults).length]) := by
  rw [scrape591]
  simp only [hnp, if_false, h1, Bool.not_true, Bool.false_eq_true,
    runTargets_noThrow env hnp env.targets [] [], List.nil_append]
  rw [← joinedTagged, cap_take]

lemma tagged_map_id (l : List Listing) (r : String) :
    (l.map (fun x => { x with region := r })).map Listing.id = l.map Listing.id := by
  induction l with
  | nil => rfl
  | cons a l ih => simp [ih]

lemma serializeParams_append_one (l : List (String × String)) (p : String × String)
    (h : l ≠ []) :
    serializeParams (l ++ [p]) =
      serializeParams l ++ "&" ++ (formEncode p.1 ++ "=" ++ formEncode p.2) := by
  induction l with
  | nil => exact absurd rfl h
  | cons q l ih =>
    cases l with
    | nil => simp [serializeParams, String.append_assoc]
    | cons r rest =>
      have hne : r :: rest ≠ [] := by simp
      calc serializeParams ((q :: r :: rest) ++ [p])
          = formEncode q.1 ++ "=" ++ formEncode q.2 ++ "&" ++
              serializeParams ((r :: rest) ++ [p]) := by simp [serializeParams]
        _ = formEncode q.1 ++ "=" ++ formEncode q.2 ++ "&" ++
              (serializeParams (r :: rest) ++ "&" ++ (formEncode p.1 ++ "=" ++ formEncode p.2)) := by
            rw [ih hne]
        _ = serializeParams (q :: r :: rest) ++ "&" ++
              (formEncode p.1 ++ "=" ++ formEncode p.2) := by
            simp [serializeParams, String.append_assoc]

lemma paramsWithSection_ne_nil (region : Nat) (sectionId : Option Nat)
    (minRent maxRent : Nat) :
    paramsWithSection region sectionId minRent maxRent ≠ [] := by
  cases sectionId with
  | none => simp [paramsWithSection, baseParams]
  | some s =>
    by_cases hs : s = 0 <;> simp [paramsWithSection, baseParams, hs]

lemma buildSearchUrl_keyword_suffix (region : Nat) (sectionId : Option Nat)
    (minRent maxRent : Nat) (kw : String) (h : kw ≠ "") :
    buildSearchUrl region sectionId minRent maxRent kw =
      (SEARCH_CONFIG.baseUrl ++ "?" ++
        serializeParams (paramsWithSection region sectionId minRent maxRent)) ++
      ("&keywords=" ++ formEncode kw) := by
  have h1 : searchParams region sectionId minRent maxRent kw =
      paramsWithSection region sectionId minRent maxRent ++ [("keywords", kw)] := by
    simp [searchParams, h]
  rw [buildSearchUrl, h1,
    serializeParams_append_one _ _ (paramsWithSection_ne_nil region sectionId minRent maxRent)]
  have h3 : formEncode "keywords" = "keywords" := by decide
  have h4 : ("&keywords=" : String) = "&" ++ ("keywords" ++ "=") := by decide
  rw [h4]
  simp only [h3, String.append_assoc]

/-! ## Claim theorems -/

/-- Claim C3, counterexample: the extractor price parser maps "NT$12,000"
to 0, not to 12000 as claimed — the replace only strips comma, yuan,
slash and month characters, so parseInt sees the NT$ prefix and yields
NaN, defaulted to 0. -/
theorem C3_counterexample : parsePrice "NT$12,000" = 0 ∧ parsePrice "NT$12,000" ≠ 12000 := by
  decide

/-- Claim C3 (amended): the price parser maps "NT$12,000" to 0 (the NT$
prefix is not among the stripped tokens, so integer parsing fails and
defaults to 0), "12,000元/月" to 12000, and the empty string to 0. -/
theorem C3_price_parsing :
    parsePrice "NT$12,000" = 0 ∧ parsePrice "12,000元/月" = 12000 ∧ parsePrice "" = 0 := by
  decide

/-- Claim C4, counterexample: getContactInfo throws when the browser
launch fails (launch happens before its try block), and on a navigation
failure it returns the three-field fallback object, which is not the
all-empty five-field contact record. -/
theorem C4_counterexample :
    getContactInfo envC4launchFail = ContactResult.thrown ∧
    getContactInfo envC4navFail = ContactResult.failed "" "" "" ∧
    getContactInfo envC4navFail ≠ ContactResult.ok contactAllEmpty := by
  decide

/-- Claim C4 (amended): a browser launch failure propagates out of
getContactInfo; a navigation/extraction failure after a successful launch
is caught and yields an object with phone, messaging handle and contact
name present and empty but without title and address fields; on success
the five evaluated fields are returned. -/
theorem C4_enrichment_fallback (env : ContactEnv) :
    (env.launchOk = false → getContactInfo env = ContactResult.thrown) ∧
    (env.launchOk = true → env.navOk = false →
      getContactInfo env = ContactResult.failed "" "" "") ∧
    (env.launchOk = true → env.navOk = true →
      getContactInfo env = ContactResult.ok env.pageInfo) := by
  refine ⟨fun h => ?_, fun h1 h2 => ?_, fun h1 h2 => ?_⟩ <;>
    simp_all [getContactInfo]

/-- Witness for C4_enrichment_fallback at two concrete enrichment calls. -/
theorem C4_witness :
    getContactInfo envC4witA = ContactResult.thrown ∧
    getContactInfo envC4witB = ContactResult.failed "" "" "" :=
  ⟨(C4_enrichment_fallback envC4witA).1 rfl,
   (C4_enrichment_fallback envC4witB).2.1 rfl rfl⟩

/-- Claim C5: every listing the extractor emits has a nonempty title and
a strictly positive price; elements failing either check are discarded. -/
theorem C5_extraction_filter (items : List RawItem) (l : Listing)
    (h : l ∈ extractListings items) : l.title ≠ "" ∧ l.price > 0 := by
  rw [extractListings, List.mem_filterMap] at h
  obtain ⟨⟨i, item⟩, _, heq⟩ := h
  simp only [extractListing] at heq
  split at heq
  · rename_i hcond
    cases heq
    exact hcond
  · exact absurd heq (by simp)

/-- Witness for C5_extraction_filter on a concrete element list. -/
theorem C5_witness :
    (listingOf "123" "雅房" 9500 "").title ≠ "" ∧ (listingOf "123" "雅房" 9500 "").price > 0 :=
  C5_extraction_filter [rawItemOf "/123" "雅房" "9500"] (listingOf "123" "雅房" 9500 "")
    (by decide)

/-- Claim C6: buildSearchUrl is a pure function; on region 1, section 3,
rent 8000-12000 the URL contains region=1, section=3 and
price=8000_12000; for any inputs the fixed amenity filter pair is among
the query parameters, the section pair is present exactly when the
section argument is truthy, the keywords pair is present exactly when a
keyword is supplied, and a supplied keyword appears form-URL-encoded. -/
theorem C6_query_builder :
    (strIncludes (buildSearchUrl 1 (some 3) 8000 12000 "") "region=1" = true ∧
     strIncludes (buildSearchUrl 1 (some 3) 8000 12000 "") "section=3" = true ∧
     strIncludes (buildSearchUrl 1 (some 3) 8000 12000 "") "price=8000_12000" = true) ∧
    ∀ (region : Nat) (sectionId : Option Nat) (minRent maxRent : Nat) (kw : String),
      ("other", SEARCH_CONFIG.nearSubway ++ "," ++ SEARCH_CONFIG.canCook) ∈
          searchParams region sectionId minRent maxRent kw ∧
      ((∃ v, ("section", v) ∈ searchParams region sectionId minRent maxRent kw) ↔
          sectionTruthy sectionId = true) ∧
      ((∃ v, ("keywords", v) ∈ searchParams region sectionId minRent maxRent kw) ↔
          kw ≠ "") ∧
      (kw ≠ "" → ∃ p, buildSearchUrl region sectionId minRent maxRent kw =
          p ++ ("&keywords=" ++ formEncode kw)) := by
  refine ⟨by refine ⟨?_, ?_, ?_⟩ <;> decide, ?_⟩
  intro region sectionId minRent maxRent kw
  refine ⟨?_, ?_, ?_, ?_⟩
  · rcases sectionId with _ | s
    · by_cases hk : kw = "" <;>
        simp [searchParams, paramsWithSection, baseParams, hk]
    · by_cases hs : s = 0 <;> by_cases hk : kw = "" <;>
        simp [searchParams, paramsWithSection, baseParams, hs, hk]
  · rcases sectionId with _ | s
    · by_cases hk : kw = "" <;>
        simp [searchParams, paramsWithSection, baseParams, sectionTruthy, hk]
    · by_cases hs : s = 0 <;> by_cases hk : kw = "" <;>
        simp [searchParams, paramsWithSection, baseParams, sectionTruthy, hs, hk]
  · rcases sectionId with _ | s
    · by_cases hk : kw = "" <;>
        simp [searchParams, paramsWithSection, baseParams, hk]
    · by_cases hs : s = 0 <;> by_cases hk : kw = "" <;>
        simp [searchParams, paramsWithSection, baseParams, hs, hk]
  · intro hk
    exact ⟨_, buildSearchUrl_keyword_suffix region sectionId minRent maxRent kw hk⟩

/-- Witness for C6_query_builder: the universally quantified part applied
at the round-trip inputs of the spec with the hardcoded keyword. -/
theorem C6_witness :
    ("other", SEARCH_CONFIG.nearSubway ++ "," ++ SEARCH_CONFIG.canCook) ∈
        searchParams 1 (some 3) 8000 12000 "乾濕分離" ∧
    ((∃ v, ("section", v) ∈ searchParams 1 (some 3) 8000 12000 "乾濕分離") ↔
        sectionTruthy (some 3) = true) ∧
    ((∃ v, ("keywords", v) ∈ searchParams 1 (some 3) 8000 12000 "乾濕分離") ↔
        ("乾濕分離" : String) ≠ "") ∧
    (("乾濕分離" : String) ≠ "" → ∃ p, buildSearchUrl 1 (some 3) 8000 12000 "乾濕分離" =
        p ++ ("&keywords=" ++ formEncode "乾濕分離")) :=
  C6_query_builder.2 1 (some 3) 8000 12000 "乾濕分離"

/-- Claim C10: every URL scrapeRegion actually navigates to ends with the
form-URL-encoded hardcoded keyword 乾濕分離, independent of all caller
inputs, and hence contains the token keywords=%E4%B9%BE%E6%BF%95%E5%88%86%E9%9B%A2;
the run environment of scrape591 offers no keyword field at all. -/
theorem C10_hardcoded_keyword (region : Nat) (sectionId : Option Nat)
    (minRent maxRent : Nat) :
    (∃ p, scrapeRegionUrl region sectionId minRent maxRent =
      p ++ ("&keywords=" ++ "%E4%B9%BE%E6%BF%95%E5%88%86%E9%9B%A2")) ∧
    StrHasSub (scrapeRegionUrl region sectionId minRent maxRent)
      "keywords=%E4%B9%BE%E6%BF%95%E5%88%86%E9%9B%A2" := by
  have henc : formEncode "乾濕分離" = "%E4%B9%BE%E6%BF%95%E5%88%86%E9%9B%A2" := by decide
  have h := buildSearchUrl_keyword_suffix region sectionId minRent maxRent "乾濕分離" (by decide)
  rw [scrapeRegionUrl, h, henc]
  refine ⟨⟨_, rfl⟩, ?_⟩
  refine ⟨(SEARCH_CONFIG.baseUrl ++ "?" ++
    serializeParams (paramsWithSection region sectionId minRent maxRent)).data ++ ['&'], [], ?_⟩
  simp only [String.data_append, List.append_nil, List.append_assoc, List.cons_append,
    List.nil_append]

lemma strHasSub_found (a : String) (n : Nat) :
    StrHasSub (a ++ "\n   找到 " ++ toString n ++ " 間物件")
      ("找到 " ++ toString n ++ " 間物件") := by
  refine ⟨a.data ++ "\n   ".data, [], ?_⟩
  simp only [String.data_append, List.append_nil, List.append_assoc,
    List.cons_append, List.nil_append]

/-- Claim C1, counterexample: a run on which the progress callback throws
inside the per-target loop returns the accumulated listings without the
dedup step, so two records with the same id 999 from two targets are both
returned. -/
theorem C1_counterexample :
    runListings (scrape591 envC1cex) =
      some [listingOf "999" "套房" 100 "A1", listingOf "999" "套房" 100 "A2"] ∧
    (listingOf "999" "套房" 100 "A1").id = (listingOf "999" "套房" 100 "A2").id ∧
    listingOf "999" "套房" 100 "A1" ≠ listingOf "999" "套房" 100 "A2" := by
  decide

/-- Claim C1 (amended): on every run whose target loop completes with no
caught error — in particular every run without a progress callback — the
returned listings are the id-dedup of the concatenated tagged per-target
lists truncated to the cap: their ids are pairwise distinct, each
returned record is the first record bearing its id in target-iteration
order (hence carries the region tag of the first target that yielded the
id), and every extracted id is represented. -/
theorem C1_dedup_first_wins (env : ScrapeEnv) (h1 : env.launchOk = true)
    (hnp : ∀ msg, progressThrows env msg = false) :
    ∃ logs, scrape591 env =
        RunResult.ok ((dedupById (joinedTagged env)).take env.maxResults) logs ∧
      ((((dedupById (joinedTagged env)).take env.maxResults).map Listing.id).Nodup ∧
       (∀ y ∈ (dedupById (joinedTagged env)).take env.maxResults,
         (joinedTagged env).find? (fun z => z.id == y.id) = some y) ∧
       (∀ x ∈ joinedTagged env, ∃ y ∈ dedupById (joinedTagged env), y.id = x.id)) := by
  refine ⟨_, scrape591_noThrow env h1 hnp, ?_, ?_, ?_⟩
  · have hs : List.Sublist
        (((dedupById (joinedTagged env)).take env.maxResults).map Listing.id)
        ((dedupById (joinedTagged env)).map Listing.id) :=
      (List.take_sublist _ _).map _
    exact List.Nodup.sublist hs (dedupAux_nodup _ [])
  · intro y hy
    exact (dedupAux_spec _ [] y (List.take_subset _ _ hy)).2
  · intro x hx
    exact dedupAux_complete _ [] x hx (by simp)

/-- Witness for C1_dedup_first_wins: two targets yielding the same id 999
produce exactly one returned record, tagged with the first target. -/
theorem C1_witness :
    (∃ logs, scrape591 envC1wit =
        RunResult.ok ((dedupById (joinedTagged envC1wit)).take envC1wit.maxResults) logs ∧
      ((((dedupById (joinedTagged envC1wit)).take envC1wit.maxResults).map Listing.id).Nodup ∧
       (∀ y ∈ (dedupById (joinedTagged envC1wit)).take envC1wit.maxResults,
         (joinedTagged envC1wit).find? (fun z => z.id == y.id) = some y) ∧
       (∀ x ∈ joinedTagged envC1wit, ∃ y ∈ dedupById (joinedTagged envC1wit), y.id = x.id))) ∧
    runListings (scrape591 envC1wit) = some [listingOf "999" "套房" 100 "W1"] :=
  ⟨C1_dedup_first_wins envC1wit rfl (fun msg => rfl), by decide⟩

/-- Claim C2, counterexample: when the progress callback throws inside
the loop, the run-level catch returns the listings accumulated so far
without truncation — here three listings against a cap of two. -/
theorem C2_counterexample :
    (runListings (scrape591 envC2cex)).map List.length = some 3 ∧
    envC2cex.maxResults = 2 := by
  decide

/-- Claim C2 (amended): on every run whose target loop completes with no
caught error the returned listing count is at most maxResults; a run on
which an unexpected error is thrown inside the per-target loop skips
dedup and truncation and may exceed the cap. -/
theorem C2_result_cap (env : ScrapeEnv) (h1 : env.launchOk = true)
    (hnp : ∀ msg, progressThrows env msg = false) :
    ∃ listings logs, scrape591 env = RunResult.ok listings logs ∧
      listings.length ≤ env.maxResults := by
  refine ⟨_, _, scrape591_noThrow env h1 hnp, ?_⟩
  simp only [List.length_take]
  omega

/-- Witness for C2_result_cap: three extracted listings, cap two, two
returned. -/
theorem C2_witness :
    (∃ listings logs, scrape591 envC2wit = RunResult.ok listings logs ∧
      listings.length ≤ envC2wit.maxResults) ∧
    (runListings (scrape591 envC2wit)).map List.length = some 2 :=
  ⟨C2_result_cap envC2wit rfl (fun msg => rfl), by decide⟩

/-- Claim C7: a target-level failure is absorbed inside that target's
scrape attempt — scrapeRegion returns the empty list — and the run still
processes every target: the log sequence has one entry per target plus
the final line. -/
theorem C7_target_failure_isolated (env : ScrapeEnv) (t : Target)
    (h1 : env.launchOk = true) (hnp : ∀ msg, progressThrows env msg = false)
    (ht : t ∈ env.targets) (hf : env.fetch t = RegionFetch.fail) :
    scrapeRegion (env.fetch t) = [] ∧
    ∃ listings logs, scrape591 env = RunResult.ok listings logs ∧
      logs.length = env.targets.length + 1 := by
  refine ⟨by rw [hf]; rfl, ?_⟩
  refine ⟨_, _, scrape591_noThrow env h1 hnp, ?_⟩
  simp [targetLogs]

/-- Witness for C7_target_failure_isolated: target F1 fails, target F2
succeeds, the run completes with both log entries. -/
theorem C7_witness :
    scrapeRegion (envC7wit.fetch ⟨1, some 1, "F1"⟩) = [] ∧
    ∃ listings logs, scrape591 envC7wit = RunResult.ok listings logs ∧
      logs.length = envC7wit.targets.length + 1 :=
  C7_target_failure_isolated envC7wit ⟨1, some 1, "F1"⟩ rfl (fun msg => rfl)
    (by decide) (by decide)

/-- Claim C8, counterexample: with a callback that throws on its first
invocation (made before the try block) scrape591 itself throws, so the
pipeline aborts; the identical run without a callback returns a listing. -/
theorem C8_counterexample :
    scrape591 envC8cex = RunResult.thrown ∧
    runListings (scrape591 envC8good) = some [listingOf "555" "房" 100 "P1"] := by
  decide

/-- Claim C8 (amended): the onProgress calls are not guarded: a callback
throwing on the startup notification propagates out of scrape591, and a
callback throwing on a per-target start notification ends the loop at
that target — that target and all remaining ones contribute nothing. -/
theorem C8_progress_unguarded :
    (∀ (env : ScrapeEnv) (f : String → Bool), env.onProgress = some f →
      f startupMsg = false → scrape591 env = RunResult.thrown) ∧
    (∀ (env : ScrapeEnv) (f : String → Bool) (t : Target) (rest : List Target)
        (acc : List Listing) (logs : List String),
      env.onProgress = some f → f (startMsg t) = false →
      runTargets env (t :: rest) acc logs = (acc, logs, false)) := by
  constructor
  · intro env f h hf
    rw [scrape591]
    simp [progressThrows, h, hf]
  · intro env f t rest acc logs h hf
    rw [runTargets]
    simp [progressThrows, h, hf]

/-- Witness for C8_progress_unguarded at two concrete runs. -/
theorem C8_witness :
    scrape591 envC8cex = RunResult.thrown ∧
    runTargets envC8wit [⟨1, some 1, "Q1"⟩] [] [] = ([], [], false) :=
  ⟨C8_progress_unguarded.1 envC8cex (fun _ => false) rfl rfl,
   C8_progress_unguarded.2 envC8wit (fun msg => !(msg == startMsg ⟨1, some 1, "Q1"⟩))
     ⟨1, some 1, "Q1"⟩ [] [] [] rfl (by decide)⟩

/-- Claim C9: a successful one-target run extracting seven distinct valid
listings against a cap of five returns five listings, its log sequence
contains a per-target line with the token found-7, and its final line
reports the total of five. -/
theorem C9_log_counts (env : ScrapeEnv) (t : Target) (items : List RawItem)
    (h1 : env.launchOk = true) (hnp : ∀ msg, progressThrows env msg = false)
    (ht : env.targets = [t]) (hf : env.fetch t = RegionFetch.ok items)
    (hn : (extractListings items).length = 7)
    (hd : ((extractListings items).map Listing.id).Nodup)
    (hm : env.maxResults = 5) :
    ∃ listings logs, scrape591 env = RunResult.ok listings logs ∧
      listings.length = 5 ∧
      (∃ e ∈ logs, StrHasSub e "找到 7 間物件") ∧
      logs.getLast? = some (finalLog 5) := by
  have hjt : joinedTagged env =
      (extractListings items).map (fun l => { l with region := t.name }) := by
    simp [joinedTagged, ht, taggedOf, hf, scrapeRegion]
  have hid : (joinedTagged env).map Listing.id = (extractListings items).map Listing.id := by
    rw [hjt, tagged_map_id]
  have hnodup : ((joinedTagged env).map Listing.id).Nodup := by rw [hid]; exact hd
  have hded : dedupById (joinedTagged env) = joinedTagged env :=
    dedupById_eq_self _ hnodup
  have hlen : (joinedTagged env).length = 7 := by
    rw [hjt, List.length_map]; exact hn
  have hrun := scrape591_noThrow env h1 hnp
  rw [hded, hm] at hrun
  have hlen5 : ((joinedTagged env).take 5).length = 5 := by
    simp [List.length_take, hlen]
  have hlogs : targetLogs env env.targets = [targetLogEntry env t 7] := by
    simp [targetLogs, ht, scrapeRegion, hf, hn]
  rw [hlogs, hlen5] at hrun
  refine ⟨_, _, hrun, hlen5, ⟨targetLogEntry env t 7, by simp, ?_⟩, by simp⟩
  have h7 : ("找到 7 間物件" : String) = "找到 " ++ toString (7 : Nat) ++ " 間物件" := by
    decide
  rw [h7, targetLogEntry]
  exact strHasSub_found _ 7

/-- Witness for C9_log_counts at the concrete spec scenario. -/
theorem C9_witness :
    ∃ listings logs, scrape591 envC9wit = RunResult.ok listings logs ∧
      listings.length = 5 ∧
      (∃ e ∈ logs, StrHasSub e "找到 7 間物件") ∧
      logs.getLast? = some (finalLog 5) :=
  C9_log_counts envC9wit ⟨1, some 1, "City-A"⟩ itemsC9 rfl (fun msg => rfl) rfl rfl
    (by decide) (by decide) rfl

/-- Witness for C10_hardcoded_keyword at the default first target. -/
theorem C10_witness :
    (∃ p, scrapeRegionUrl 1 (some 1) 8000 12000 =
      p ++ ("&keywords=" ++ "%E4%B9%BE%E6%BF%95%E5%88%86%E9%9B%A2")) ∧
    StrHasSub (scrapeRegionUrl 1 (some 1) 8000 12000)
      "keywords=%E4%B9%BE%E6%BF%95%E5%88%86%E9%9B%A2" :=
  C10_hardcoded_keyword 1 (some 1) 8000 12000
